import Mathlib

/-!
Shallow embedding of `src/main.js` (interactive 3D model viewer).

The viewer keeps global mutable state (`scene`, `currentModel`, `gui`) and
reacts to UI events and asynchronous loader completions.  We model that state
explicitly as an `AppState` record and each source function as a state
transformer.  Asynchronous `GLTFLoader.load` calls are modelled by a list of
pending load requests; the environment (the browser event loop) later fires
at most one completion event per request, either success (`completeOk`,
running the success closure passed to `loader.load`) or failure
(`completeErr`, running the error closure).  The interleaving of request and
completion events is chosen freely by the scheduler, matching the
single-threaded callback semantics of the source.

Numeric transform components are modelled as exact rationals `ℚ`.  Every
numeric literal in the source is an exact decimal and the program performs no
arithmetic on transform components (only assignment), so the embedding is
exact.  Decimal literals such as `-1.02` are written `Rat.divInt (-102) 100`
so that proofs can evaluate them; the theorem `modelPresets_decimal_values`
checks this spelling against the decimal literals of the source.
-/

/-- A 3-component vector (three.js `Vector3` / `Euler`), components as `ℚ`. -/
structure Vec3 where
  x : ℚ
  y : ℚ
  z : ℚ
deriving DecidableEq, Repr

/-- A full placement of a model: position, rotation (Euler angles), scale. -/
structure Transform where
  position : Vec3
  rotation : Vec3
  scale : Vec3
deriving DecidableEq, Repr

/-- `const modelFiles = { 'Regular Hand': '/hand_model.glb', 'Skeleton Hand':
'/skeleton_hand.glb' }` (src/main.js lines 10-13), as a lookup function. -/
def modelFiles (name : String) : Option String :=
  if name = "Regular Hand" then some "/hand_model.glb"
  else if name = "Skeleton Hand" then some "/skeleton_hand.glb"
  else none

/-- `Object.keys(modelFiles)`, in insertion order. -/
def modelFilesKeys : List String := ["Regular Hand", "Skeleton Hand"]

/-- `const modelPresets = { ... }` (src/main.js lines 16-51): the two-level
lookup `modelPresets[modelName][presetName]`, flattened to one function
returning `none` when either level is missing (the source guard
`!modelPresets[modelName] || !modelPresets[modelName][presetName]` checks the
two levels separately, with the same overall effect). -/
def modelPresets (modelName presetName : String) : Option Transform :=
  if modelName = "Regular Hand" then
    if presetName = "Default" then
      some ⟨⟨-10, -20, -7⟩,
            ⟨Rat.divInt (-102) 100, Rat.divInt (-106) 100, Rat.divInt 7 100⟩,
            ⟨1, 1, 1⟩⟩
    else if presetName = "Palm View" then
      some ⟨⟨1, 39, -6⟩,
            ⟨Rat.divInt 441 100, Rat.divInt 172 100, Rat.divInt 7 100⟩,
            ⟨Rat.divInt 12 10, Rat.divInt 12 10, Rat.divInt 12 10⟩⟩
    else if presetName = "Side View" then
      some ⟨⟨-31, 23, 12⟩,
            ⟨Rat.divInt 495 100, Rat.divInt (-581) 100, Rat.divInt (-634) 100⟩,
            ⟨Rat.divInt 12 10, Rat.divInt 12 10, Rat.divInt 12 10⟩⟩
    else none
  else if modelName = "Skeleton Hand" then
    if presetName = "Default" then
      some ⟨⟨10, 30, 8⟩,
            ⟨Rat.divInt (-7) 10, Rat.divInt (-62) 10, Rat.divInt (-32) 10⟩,
            ⟨Rat.divInt 11 10, Rat.divInt 11 10, Rat.divInt 11 10⟩⟩
    else if presetName = "Palm View" then
      some ⟨⟨-11, -9, 11⟩,
            ⟨Rat.divInt 38 10, Rat.divInt 31 10, Rat.divInt 31 10⟩,
            ⟨Rat.divInt 11 10, Rat.divInt 11 10, Rat.divInt 11 10⟩⟩
    else if presetName = "Wrist View" then
      some ⟨⟨12, 4, 4⟩,
            ⟨Rat.divInt 31 10, Rat.divInt 18 10, Rat.divInt (-16) 10⟩,
            ⟨Rat.divInt 11 10, Rat.divInt 11 10, Rat.divInt 11 10⟩⟩
    else none
  else none

/-- The `Object.keys(modelFiles).find(key => modelFiles[key] === modelPath)`
reverse lookup performed in the load-success callback (src/main.js
lines 121-123). -/
def modelNameForPath (path : String) : Option String :=
  modelFilesKeys.find? (fun k => decide (modelFiles k = some path))

/-- A pending asynchronous `loader.load` request: its sequence number (used as
the identity of the `gltf.scene` node it will produce) and the requested
asset path. -/
structure PendingLoad where
  id : ℕ
  path : String
deriving DecidableEq, Repr

/-- A loaded model (`gltf.scene`): the scene-graph node identity, the asset
path it was loaded from, and its live transform. -/
structure Model where
  id : ℕ
  path : String
  transform : Transform
deriving DecidableEq, Repr

/-- A live `GUI` instance: an identity (to track disposal) and the
`currentModelName` captured by `createGUI`, which its preset-dropdown
callback closes over. -/
structure GuiInfo where
  id : ℕ
  modelName : String
deriving DecidableEq, Repr

/-- The global mutable state of `src/main.js`: scene membership (the ids of
model nodes currently added to `scene`), the `currentModel` and `gui`
globals, the set of constructed-and-not-destroyed `GUI` instances, the
pending loader requests, and fresh-id counters. -/
structure AppState where
  scene : List ℕ
  currentModel : Option Model
  gui : Option GuiInfo
  livePanels : List ℕ
  pending : List PendingLoad
  nextLoadId : ℕ
  nextPanelId : ℕ
deriving DecidableEq, Repr

/-- `function applyPreset(modelName, presetName)` (src/main.js lines
133-153): guarded on `currentModel` and on both catalog levels; on success
overwrites all nine transform components of `currentModel` with the preset. -/
def applyPreset (modelName presetName : String) (s : AppState) : AppState :=
  match s.currentModel, modelPresets modelName presetName with
  | some m, some preset =>
      { s with currentModel := some { m with transform := preset } }
  | _, _ => s

/-- `function createGUI(currentModelName)` (src/main.js lines 155-196):
`if (gui) gui.destroy();` then `gui = new GUI(...)` and field wiring.  The
field callbacks read the live state when fired (modelled by the event
functions below), so the panel itself is recorded as its identity plus the
captured `currentModelName`. -/
def createGUI (currentModelName : String) (s : AppState) : AppState :=
  let s1 :=
    match s.gui with
    | some g => { s with livePanels := s.livePanels.erase g.id, gui := none }
    | none => s
  { s1 with
      gui := some ⟨s1.nextPanelId, currentModelName⟩,
      livePanels := s1.livePanels ++ [s1.nextPanelId],
      nextPanelId := s1.nextPanelId + 1 }

/-- The three.js default transform of a freshly instantiated scene node
(identity placement), holding until `applyPreset` overwrites it. -/
def freshTransform : Transform := ⟨⟨0, 0, 0⟩, ⟨0, 0, 0⟩, ⟨1, 1, 1⟩⟩

/-- The success closure passed to `loader.load` (src/main.js lines 117-127):
`currentModel = gltf.scene; scene.add(currentModel);` then the reverse name
lookup, `applyPreset(modelName, 'Default')` and `createGUI(modelName)`.
`loadModel` is only ever invoked with paths drawn from `modelFiles`, so the
reverse lookup always succeeds; the `none` branch (where the source would
fault inside `createGUI`) is unreachable and left as the identity. -/
def onLoadSuccess (p : PendingLoad) (s : AppState) : AppState :=
  let s1 := { s with
      currentModel := some ⟨p.id, p.path, freshTransform⟩,
      scene := s.scene ++ [p.id] }
  match modelNameForPath p.path with
  | some modelName => createGUI modelName (applyPreset modelName "Default" s1)
  | none => s1

/-- `function loadModel(modelPath)` (src/main.js lines 110-131): the
synchronous part — `if (currentModel) scene.remove(currentModel);` happens
immediately, then `loader.load` registers the request; its completion is a
separate later event (`completeOk` / `completeErr`). -/
def loadModel (modelPath : String) (s : AppState) : AppState :=
  let s1 :=
    match s.currentModel with
    | some m => { s with scene := s.scene.erase m.id }
    | none => s
  { s1 with
      pending := s1.pending ++ [⟨s1.nextLoadId, modelPath⟩],
      nextLoadId := s1.nextLoadId + 1 }

/-- Scheduler event: the pending load `loadId` completes successfully,
running the success closure of `loader.load` for that request and removing
the request from the pending set (each request completes at most once). -/
def completeOk (loadId : ℕ) (s : AppState) : AppState :=
  match s.pending.find? (fun p => p.id == loadId) with
  | some p =>
      onLoadSuccess p
        { s with pending := s.pending.filter (fun q => !(q.id == loadId)) }
  | none => s

/-- Scheduler event: the pending load `loadId` fails; the error closure only
does `console.error` (src/main.js line 129), so the application state is
unchanged apart from the request being spent. -/
def completeErr (loadId : ℕ) (s : AppState) : AppState :=
  { s with pending := s.pending.filter (fun q => !(q.id == loadId)) }

/-- UI event: the model-selector dropdown fires with `modelName`
(src/main.js lines 161-167): `loadModel(modelFiles[modelName])`.  The
dropdown exists only while a panel is live and only offers `modelFiles`
keys. -/
def selectModelEvent (modelName : String) (s : AppState) : AppState :=
  match s.gui with
  | none => s
  | some _ =>
      match modelFiles modelName with
      | some path => loadModel path s
      | none => s

/-- UI event: the view-preset dropdown fires with `presetName` (src/main.js
lines 171-177): `applyPreset(currentModelName, presetName)` with the
`currentModelName` captured when the panel was built. -/
def selectPresetEvent (presetName : String) (s : AppState) : AppState :=
  match s.gui with
  | none => s
  | some g => applyPreset g.modelName presetName s

/-- The transform component a panel field edits: one of the three position
axes, three rotation axes, or the single uniform-scale field. -/
inductive FieldComp
  | posX | posY | posZ | rotX | rotY | rotZ | scaleU
deriving DecidableEq, Repr

/-- Writing one edited component into a transform.  `scaleU` is the single
scale field: `.onChange(v => currentModel.scale.set(v, v, v))` (src/main.js
lines 192-193) writes the scalar into all three scale components. -/
def setFieldComp (c : FieldComp) (v : ℚ) (t : Transform) : Transform :=
  match c with
  | .posX => { t with position := { t.position with x := v } }
  | .posY => { t with position := { t.position with y := v } }
  | .posZ => { t with position := { t.position with z := v } }
  | .rotX => { t with rotation := { t.rotation with x := v } }
  | .rotY => { t with rotation := { t.rotation with y := v } }
  | .rotZ => { t with rotation := { t.rotation with z := v } }
  | .scaleU => { t with scale := ⟨v, v, v⟩ }

/-- UI event: a numeric panel field fires with value `v` (src/main.js lines
180-193).  Fields exist only while a panel is live; they write into the
displayed model's transform (the panel is always rebuilt together with
`currentModel`, so the bound objects are `currentModel`'s).  With no panel
there is no field and the event cannot fire (identity). -/
def editFieldEvent (c : FieldComp) (v : ℚ) (s : AppState) : AppState :=
  match s.gui with
  | none => s
  | some _ =>
      match s.currentModel with
      | some m =>
          let m1 := { m with transform := setFieldComp c v m.transform }
          { s with currentModel := some m1 }
      | none => s

/-- The state at the start of `init()`: empty scene slot, no current model,
no panel, nothing pending. -/
def initState : AppState :=
  { scene := [],
    currentModel := none,
    gui := none,
    livePanels := [],
    pending := [],
    nextLoadId := 0,
    nextPanelId := 0 }

/-- The model-loading part of `function init()` (src/main.js line 98):
`loadModel(modelFiles['Regular Hand'])`, issued automatically before any
user interaction.  (`modelFiles "Regular Hand" = some "/hand_model.glb"`.) -/
def init (s : AppState) : AppState :=
  loadModel "/hand_model.glb" s

/-- The state reached when the automatic initial load succeeds. -/
def stateAfterInit : AppState := completeOk 0 (init initState)

/-- The Viewer Session's `Empty` state: no model displayed and, since the
panel is only ever built inside a successful load callback, no panel. -/
def isEmptyState (s : AppState) : Prop :=
  s.currentModel = none ∧ s.gui = none

/-- The invariant relating the `gui` global to the set of live (constructed,
not yet destroyed) `GUI` instances: the live instance is exactly the one the
global refers to. -/
def panelInv (s : AppState) : Prop :=
  s.livePanels = (s.gui.map GuiInfo.id).toList

/-- Fidelity of the `Rat.divInt` spellings in `modelPresets` to the decimal
literals written in src/main.js lines 16-51. -/
theorem modelPresets_decimal_values :
    (Rat.divInt (-102) 100 = (-1.02 : ℚ)) ∧ (Rat.divInt (-106) 100 = (-1.06 : ℚ)) ∧
    (Rat.divInt 7 100 = (0.07 : ℚ)) ∧ (Rat.divInt 441 100 = (4.41 : ℚ)) ∧
    (Rat.divInt 172 100 = (1.72 : ℚ)) ∧ (Rat.divInt 12 10 = (1.2 : ℚ)) ∧
    (Rat.divInt 495 100 = (4.95 : ℚ)) ∧ (Rat.divInt (-581) 100 = (-5.81 : ℚ)) ∧
    (Rat.divInt (-634) 100 = (-6.34 : ℚ)) ∧ (Rat.divInt (-7) 10 = (-0.7 : ℚ)) ∧
    (Rat.divInt (-62) 10 = (-6.2 : ℚ)) ∧ (Rat.divInt (-32) 10 = (-3.2 : ℚ)) ∧
    (Rat.divInt 11 10 = (1.1 : ℚ)) ∧ (Rat.divInt 38 10 = (3.8 : ℚ)) ∧
    (Rat.divInt 31 10 = (3.1 : ℚ)) ∧ (Rat.divInt 18 10 = (1.8 : ℚ)) ∧
    (Rat.divInt (-16) 10 = (-1.6 : ℚ)) := by
  refine ⟨?_, ?_, ?_, ?_, ?_, ?_, ?_, ?_, ?_, ?_, ?_, ?_, ?_, ?_, ?_, ?_, ?_⟩ <;>
    · rw [Rat.divInt_eq_div]; norm_num


theorem createGUI_currentModel (n : String) (s : AppState) :
    (createGUI n s).currentModel = s.currentModel := by
  cases h : s.gui <;> simp [createGUI, h]

theorem createGUI_scene (n : String) (s : AppState) :
    (createGUI n s).scene = s.scene := by
  cases h : s.gui <;> simp [createGUI, h]

theorem applyPreset_scene (mn pn : String) (s : AppState) :
    (applyPreset mn pn s).scene = s.scene := by
  rcases h1 : s.currentModel with _ | m <;>
    rcases h2 : modelPresets mn pn with _ | t <;> simp [applyPreset, h1, h2]

theorem applyPreset_currentModel_path (mn pn : String) (s : AppState) :
    (applyPreset mn pn s).currentModel.map Model.path
      = s.currentModel.map Model.path := by
  rcases h1 : s.currentModel with _ | m <;>
    rcases h2 : modelPresets mn pn with _ | t <;> simp [applyPreset, h1, h2]

theorem onLoadSuccess_scene (p : PendingLoad) (s : AppState) :
    (onLoadSuccess p s).scene = s.scene ++ [p.id] := by
  cases h : modelNameForPath p.path <;>
    simp [onLoadSuccess, h, createGUI_scene, applyPreset_scene]

theorem onLoadSuccess_currentModel_path (p : PendingLoad) (s : AppState) :
    (onLoadSuccess p s).currentModel.map Model.path = some p.path := by
  cases h : modelNameForPath p.path <;>
    simp [onLoadSuccess, h, createGUI_currentModel, applyPreset_currentModel_path]

theorem loadModel_pending (path : String) (s : AppState) :
    (loadModel path s).pending = s.pending ++ [⟨s.nextLoadId, path⟩] := by
  cases h : s.currentModel <;> simp [loadModel, h]

theorem loadModel_currentModel (path : String) (s : AppState) :
    (loadModel path s).currentModel = s.currentModel := by
  cases h : s.currentModel <;> simp [loadModel, h]

theorem loadModel_gui (path : String) (s : AppState) :
    (loadModel path s).gui = s.gui := by
  cases h : s.currentModel <;> simp [loadModel, h]

theorem loadModel_livePanels (path : String) (s : AppState) :
    (loadModel path s).livePanels = s.livePanels := by
  cases h : s.currentModel <;> simp [loadModel, h]

theorem loadModel_scene_of_some (path : String) (s : AppState) (m : Model)
    (hm : s.currentModel = some m) :
    (loadModel path s).scene = s.scene.erase m.id := by
  simp [loadModel, hm]

theorem pending_find_fresh (path : String) (s : AppState)
    (hids : ∀ p ∈ s.pending, p.id < s.nextLoadId) :
    (loadModel path s).pending.find? (fun p => p.id == s.nextLoadId)
      = some ⟨s.nextLoadId, path⟩ := by
  rw [loadModel_pending, List.find?_append]
  have h1 : s.pending.find? (fun p => p.id == s.nextLoadId) = none := by
    refine List.find?_eq_none.mpr fun x hx => ?_
    simpa using Nat.ne_of_lt (hids x hx)
  simp [h1]

theorem pending_filter_fresh (path : String) (s : AppState)
    (hids : ∀ p ∈ s.pending, p.id < s.nextLoadId) :
    (loadModel path s).pending.filter (fun q => !(q.id == s.nextLoadId))
      = s.pending := by
  rw [loadModel_pending, List.filter_append]
  have h1 : s.pending.filter (fun q => !(q.id == s.nextLoadId)) = s.pending := by
    refine List.filter_eq_self.mpr fun x hx => ?_
    simpa using Nat.ne_of_lt (hids x hx)
  simp [h1]

theorem completeOk_fresh (path : String) (s : AppState)
    (hids : ∀ p ∈ s.pending, p.id < s.nextLoadId) :
    completeOk s.nextLoadId (loadModel path s)
      = onLoadSuccess ⟨s.nextLoadId, path⟩
          { loadModel path s with pending := s.pending } := by
  rw [completeOk]
  rw [pending_find_fresh path s hids, pending_filter_fresh path s hids]

theorem createGUI_panelInv (n : String) (s : AppState) (h : panelInv s) :
    panelInv (createGUI n s) := by
  rcases hg : s.gui with _ | g
  · rw [panelInv, hg] at h
    simp [panelInv, createGUI, hg, h]
  · rw [panelInv, hg] at h
    simp [panelInv, createGUI, hg, h, List.erase_cons_head]

theorem createGUI_gui_isSome (n : String) (s : AppState) :
    (createGUI n s).gui.isSome := by
  cases hg : s.gui <;> simp [createGUI, hg]

theorem panelInv_length_one (t : AppState) (h : panelInv t) (hg : t.gui.isSome) :
    t.livePanels.length = 1 := by
  rcases ht : t.gui with _ | g
  · rw [ht] at hg; simp at hg
  · rw [panelInv, ht] at h; simp [h]

theorem foldl_createGUI_panelInv (names : List String) :
    ∀ t : AppState, panelInv t → t.gui.isSome →
      panelInv (names.foldl (fun u nm => createGUI nm u) t) ∧
      (names.foldl (fun u nm => createGUI nm u) t).gui.isSome := by
  induction names with
  | nil => exact fun t h hg => ⟨h, hg⟩
  | cons nm names ih =>
      intro t h hg
      simp only [List.foldl_cons]
      exact ih _ (createGUI_panelInv nm t h) (createGUI_gui_isSome nm t)

/-- C7: at most one control panel is live at any time — `createGUI` disposes
of the previously built panel before constructing the new one, so starting
from any state satisfying the panel invariant, after any nonempty sequence of
rebuilds exactly one panel is live. -/
theorem c7_exactly_one_live_panel (s : AppState) (h : panelInv s)
    (n : String) (names : List String) :
    (names.foldl (fun t nm => createGUI nm t) (createGUI n s)).livePanels.length
      = 1 := by
  have h2 := foldl_createGUI_panelInv names (createGUI n s)
    (createGUI_panelInv n s h) (createGUI_gui_isSome n s)
  exact panelInv_length_one _ h2.1 h2.2

/-- Witness for C7 at a concrete state: rebuilding for "Regular Hand" and
then for "Skeleton Hand" from the pristine state leaves exactly one live
panel. -/
theorem c7_exactly_one_live_panel_witness :
    panelInv initState ∧
    ((["Skeleton Hand"].foldl (fun t nm => createGUI nm t)
        (createGUI "Regular Hand" initState)).livePanels.length = 1) :=
  ⟨rfl, c7_exactly_one_live_panel initState rfl "Regular Hand" ["Skeleton Hand"]⟩

/-- C9: while the session is in the `Empty` state (no model displayed, hence
no panel either), `selectPreset` and `editField` events are no-ops: the state
is unchanged and no failure occurs. -/
theorem c9_empty_state_noops (s : AppState) (h : isEmptyState s)
    (presetName : String) (c : FieldComp) (v : ℚ) :
    selectPresetEvent presetName s = s ∧ editFieldEvent c v s = s := by
  obtain ⟨hm, hg⟩ := h
  constructor <;> simp [selectPresetEvent, editFieldEvent, hg]

/-- Witness for C9 at the pristine state. -/
theorem c9_empty_state_noops_witness :
    isEmptyState initState ∧
    (selectPresetEvent "Palm View" initState = initState ∧
     editFieldEvent FieldComp.scaleU 2 initState = initState) :=
  ⟨⟨rfl, rfl⟩, c9_empty_state_noops initState ⟨rfl, rfl⟩ "Palm View" FieldComp.scaleU 2⟩

/-- C6: while a model is displayed, the panel's single scale field delivering
value `v` sets all three scale components of the displayed model's transform
to `v` (src/main.js lines 192-193). -/
theorem c6_uniform_scale (s : AppState) (g : GuiInfo) (m : Model) (v : ℚ)
    (hg : s.gui = some g) (hm : s.currentModel = some m) :
    (editFieldEvent FieldComp.scaleU v s).currentModel.map
        (fun m1 => m1.transform.scale) = some ⟨v, v, v⟩ := by
  simp [editFieldEvent, hg, hm, setFieldComp]

/-- Witness for C6: editing the scale field to 2 right after the initial load
makes the displayed scale (2, 2, 2). -/
theorem c6_uniform_scale_witness :
    (editFieldEvent FieldComp.scaleU 2 stateAfterInit).currentModel.map
        (fun m1 => m1.transform.scale) = some ⟨2, 2, 2⟩ :=
  c6_uniform_scale stateAfterInit ⟨0, "Regular Hand"⟩
    ⟨0, "/hand_model.glb",
      ⟨⟨-10, -20, -7⟩,
       ⟨Rat.divInt (-102) 100, Rat.divInt (-106) 100, Rat.divInt 7 100⟩,
       ⟨1, 1, 1⟩⟩⟩
    2 (by decide) (by decide)

/-- C8: preset application is idempotent — for a displayed model and a preset
present in the catalog for that model, applying the preset twice in a row
yields exactly the same state as applying it once. -/
theorem c8_preset_idempotent (s : AppState) (m : Model) (t : Transform)
    (modelName presetName : String) (hm : s.currentModel = some m)
    (hp : modelPresets modelName presetName = some t) :
    applyPreset modelName presetName (applyPreset modelName presetName s)
      = applyPreset modelName presetName s := by
  simp [applyPreset, hm, hp]

/-- Witness for C8: applying "Palm View" twice after the initial load equals
applying it once. -/
theorem c8_preset_idempotent_witness :
    applyPreset "Regular Hand" "Palm View"
        (applyPreset "Regular Hand" "Palm View" stateAfterInit)
      = applyPreset "Regular Hand" "Palm View" stateAfterInit :=
  c8_preset_idempotent stateAfterInit
    ⟨0, "/hand_model.glb",
      ⟨⟨-10, -20, -7⟩,
       ⟨Rat.divInt (-102) 100, Rat.divInt (-106) 100, Rat.divInt 7 100⟩,
       ⟨1, 1, 1⟩⟩⟩
    ⟨⟨1, 39, -6⟩,
     ⟨Rat.divInt 441 100, Rat.divInt 172 100, Rat.divInt 7 100⟩,
     ⟨Rat.divInt 12 10, Rat.divInt 12 10, Rat.divInt 12 10⟩⟩
    "Regular Hand" "Palm View" (by decide) (by decide)

/-- C10: `init()` automatically issues a load of the `'Regular Hand'` asset
before any user interaction (no selectModel event needed to leave `Empty`);
while the load is pending the state is still `Empty`, and on its success the
displayed model is the Regular Hand asset with its `"Default"` preset applied
and the control panel built for it. -/
theorem c10_automatic_initial_load :
    modelFiles "Regular Hand" = some "/hand_model.glb" ∧
    (init initState).pending = [⟨0, "/hand_model.glb"⟩] ∧
    (init initState).currentModel = none ∧ (init initState).gui = none ∧
    stateAfterInit.currentModel.map Model.path = some "/hand_model.glb" ∧
    stateAfterInit.currentModel.map Model.transform
      = modelPresets "Regular Hand" "Default" ∧
    stateAfterInit.gui.map GuiInfo.modelName = some "Regular Hand" ∧
    stateAfterInit.livePanels.length = 1 := by
  decide

theorem completeErr_currentModel (i : ℕ) (s : AppState) :
    (completeErr i s).currentModel = s.currentModel := rfl

theorem completeErr_gui (i : ℕ) (s : AppState) :
    (completeErr i s).gui = s.gui := rfl

theorem completeErr_livePanels (i : ℕ) (s : AppState) :
    (completeErr i s).livePanels = s.livePanels := rfl

theorem completeErr_scene (i : ℕ) (s : AppState) :
    (completeErr i s).scene = s.scene := rfl

theorem modelNameForPath_hand :
    modelNameForPath "/hand_model.glb" = some "Regular Hand" := by decide

theorem modelNameForPath_skeleton :
    modelNameForPath "/skeleton_hand.glb" = some "Skeleton Hand" := by decide

/-- C1 fails on the code: there is no staleness guard in `loadModel`, so the
stale first result is not discarded.  Concretely, from the state after the
initial load, `selectModel("Skeleton Hand")` (request A, sequence number 1)
followed by `selectModel("Regular Hand")` (request B, sequence number 2)
while A is still pending; if B's load completes before A's, the final
displayed model is A ("/skeleton_hand.glb"), not B — the claim requires B
regardless of completion order. -/
theorem c1_counterexample_stale_result_wins :
    ((selectModelEvent "Regular Hand"
        (selectModelEvent "Skeleton Hand" stateAfterInit)).pending
      = [⟨1, "/skeleton_hand.glb"⟩, ⟨2, "/hand_model.glb"⟩]) ∧
    ((completeOk 1 (completeOk 2 (selectModelEvent "Regular Hand"
        (selectModelEvent "Skeleton Hand" stateAfterInit)))).currentModel.map
          Model.path
      = some "/skeleton_hand.glb") := by decide

/-- C1 amended: the final displayed model is the most recently *completed*
load, not the most recently requested one — whenever a still-pending request
`p` completes successfully, the displayed model becomes `p`'s model,
whichever request it was. -/
theorem c1_amended_last_completion_wins (s : AppState) (p : PendingLoad)
    (hp : s.pending.find? (fun q => q.id == p.id) = some p) :
    (completeOk p.id s).currentModel.map Model.path = some p.path := by
  simp [completeOk, hp, onLoadSuccess_currentModel_path]

/-- Witness for the amended C1: completing the superseded request 1 last
leaves its model displayed. -/
theorem c1_amended_last_completion_wins_witness :
    (completeOk 1 (completeOk 2 (selectModelEvent "Regular Hand"
        (selectModelEvent "Skeleton Hand" stateAfterInit)))).currentModel.map
          Model.path
      = some "/skeleton_hand.glb" :=
  c1_amended_last_completion_wins _ ⟨1, "/skeleton_hand.glb"⟩ (by decide)

/-- C2 fails on the code: `loadModel` runs `scene.remove(currentModel)` at
request time, before the load can fail, and the error callback restores
nothing.  Concretely, with the Regular Hand model (node 0) displayed and in
the scene, after `selectModel("Skeleton Hand")` fails the scene is empty —
the previous model is no longer displayed in the scene, so a failed load does
leave the scene without any model (the `currentModel` variable still
references node 0). -/
theorem c2_counterexample_scene_emptied_on_failure :
    stateAfterInit.scene = [0] ∧
    stateAfterInit.currentModel.map Model.id = some 0 ∧
    ((completeErr 1 (selectModelEvent "Skeleton Hand" stateAfterInit)).scene
      = []) ∧
    ((completeErr 1
        (selectModelEvent "Skeleton Hand" stateAfterInit)).currentModel.map
          Model.id
      = some 0) := by decide

/-- C2 amended: if `selectModel(X)` fails while model `Y` is displayed, the
session still references `Y` afterwards with its transform unchanged, and no
panel rebuild occurs — but `Y` has already been removed from the scene when
the load was requested, so the scene is left without the model. -/
theorem c2_amended_failed_load_removes_scene_node (s : AppState) (m : Model)
    (path : String) (hm : s.currentModel = some m) (hnd : s.scene.Nodup) :
    (completeErr s.nextLoadId (loadModel path s)).currentModel = some m ∧
    (completeErr s.nextLoadId (loadModel path s)).gui = s.gui ∧
    (completeErr s.nextLoadId (loadModel path s)).livePanels = s.livePanels ∧
    m.id ∉ (completeErr s.nextLoadId (loadModel path s)).scene := by
  refine ⟨?_, ?_, ?_, ?_⟩
  · rw [completeErr_currentModel, loadModel_currentModel, hm]
  · rw [completeErr_gui, loadModel_gui]
  · rw [completeErr_livePanels, loadModel_livePanels]
  · rw [completeErr_scene, loadModel_scene_of_some path s m hm]
    intro hmem
    exact absurd rfl ((List.Nodup.mem_erase_iff hnd).mp hmem).1

/-- Witness for the amended C2 at the state after the initial load. -/
theorem c2_amended_failed_load_removes_scene_node_witness :
    (completeErr stateAfterInit.nextLoadId
        (loadModel "/skeleton_hand.glb" stateAfterInit)).currentModel
      = some ⟨0, "/hand_model.glb",
          ⟨⟨-10, -20, -7⟩,
           ⟨Rat.divInt (-102) 100, Rat.divInt (-106) 100, Rat.divInt 7 100⟩,
           ⟨1, 1, 1⟩⟩⟩ ∧
    (completeErr stateAfterInit.nextLoadId
        (loadModel "/skeleton_hand.glb" stateAfterInit)).gui
      = stateAfterInit.gui ∧
    (completeErr stateAfterInit.nextLoadId
        (loadModel "/skeleton_hand.glb" stateAfterInit)).livePanels
      = stateAfterInit.livePanels ∧
    (0 : ℕ) ∉ (completeErr stateAfterInit.nextLoadId
        (loadModel "/skeleton_hand.glb" stateAfterInit)).scene :=
  c2_amended_failed_load_removes_scene_node stateAfterInit
    ⟨0, "/hand_model.glb",
      ⟨⟨-10, -20, -7⟩,
       ⟨Rat.divInt (-102) 100, Rat.divInt (-106) 100, Rat.divInt 7 100⟩,
       ⟨1, 1, 1⟩⟩⟩
    "/skeleton_hand.glb" (by decide) (by decide)

/-- C3 fails on the code: the previous model's scene node is removed at
request time, while the replacing load is still pending — not only after the
new load succeeds.  Concretely, with node 0 displayed, right after
`selectModel("Skeleton Hand")` the scene no longer contains node 0 although
the new load has not completed (it is still pending). -/
theorem c3_counterexample_released_before_completion :
    stateAfterInit.scene = [0] ∧
    stateAfterInit.currentModel.map Model.id = some 0 ∧
    (selectModelEvent "Skeleton Hand" stateAfterInit).scene = [] ∧
    (selectModelEvent "Skeleton Hand" stateAfterInit).pending
      = [⟨1, "/skeleton_hand.glb"⟩] := by decide

/-- C3 amended: on a model switch the previous model's scene node is released
immediately when the new load is *requested* — before the load completes —
and it is (correctly) not retained after the new load succeeds. -/
theorem c3_amended_released_at_request_time (s : AppState) (m : Model)
    (path : String) (hm : s.currentModel = some m) (hnd : s.scene.Nodup)
    (hmid : m.id < s.nextLoadId)
    (hids : ∀ p ∈ s.pending, p.id < s.nextLoadId) :
    m.id ∉ (loadModel path s).scene ∧
    m.id ∉ (completeOk s.nextLoadId (loadModel path s)).scene := by
  have h1 : m.id ∉ (loadModel path s).scene := by
    rw [loadModel_scene_of_some path s m hm]
    intro hmem
    exact absurd rfl ((List.Nodup.mem_erase_iff hnd).mp hmem).1
  refine ⟨h1, ?_⟩
  rw [completeOk_fresh path s hids, onLoadSuccess_scene]
  intro hmem
  rcases List.mem_append.mp hmem with h | h
  · exact h1 h
  · rw [List.mem_singleton] at h
    exact absurd h (Nat.ne_of_lt hmid)

/-- Witness for the amended C3 at the state after the initial load. -/
theorem c3_amended_released_at_request_time_witness :
    (0 : ℕ) ∉ (loadModel "/skeleton_hand.glb" stateAfterInit).scene ∧
    (0 : ℕ) ∉ (completeOk stateAfterInit.nextLoadId
        (loadModel "/skeleton_hand.glb" stateAfterInit)).scene :=
  c3_amended_released_at_request_time stateAfterInit
    ⟨0, "/hand_model.glb",
      ⟨⟨-10, -20, -7⟩,
       ⟨Rat.divInt (-102) 100, Rat.divInt (-106) 100, Rat.divInt 7 100⟩,
       ⟨1, 1, 1⟩⟩⟩
    "/skeleton_hand.glb" (by decide) (by decide) (by decide) (by decide)

/-- C4: for every model in the asset catalog, immediately after a
`selectModel` load of it completes successfully, the displayed model's
transform (all nine components) equals `modelPresets[m]["Default"]`, applied
automatically by the load-success callback. -/
theorem c4_default_preset_applied_after_load (s : AppState) (m path : String)
    (hm : m = "Regular Hand" ∨ m = "Skeleton Hand")
    (hpath : modelFiles m = some path)
    (hids : ∀ p ∈ s.pending, p.id < s.nextLoadId) :
    (completeOk s.nextLoadId (loadModel path s)).currentModel.map
        Model.transform
      = modelPresets m "Default" := by
  rw [completeOk_fresh path s hids]
  rcases hm with rfl | rfl
  · have hp : "/hand_model.glb" = path := by simpa [modelFiles] using hpath
    subst hp
    simp [onLoadSuccess, modelNameForPath_hand, applyPreset,
      createGUI_currentModel, modelPresets]
  · have hp : "/skeleton_hand.glb" = path := by simpa [modelFiles] using hpath
    subst hp
    simp [onLoadSuccess, modelNameForPath_skeleton, applyPreset,
      createGUI_currentModel, modelPresets]

/-- Witness for C4: switching to the Skeleton Hand from the post-initial
state displays it with its Default preset transform. -/
theorem c4_default_preset_applied_after_load_witness :
    (completeOk stateAfterInit.nextLoadId
        (loadModel "/skeleton_hand.glb" stateAfterInit)).currentModel.map
          Model.transform
      = modelPresets "Skeleton Hand" "Default" :=
  c4_default_preset_applied_after_load stateAfterInit "Skeleton Hand"
    "/skeleton_hand.glb" (Or.inr rfl) (by decide) (by decide)

/-- C5: the example scenario.  Starting from `Empty` with all loads
succeeding: after `selectModel("Regular Hand")` the displayed transform is
position (-10, -20, -7), rotation (-1.02, -1.06, 0.07), scale (1, 1, 1);
after `selectPreset("Palm View")` it is position (1, 39, -6), rotation
(4.41, 1.72, 0.07), scale (1.2, 1.2, 1.2); after
`selectModel("Skeleton Hand")` succeeds it is position (10, 30, 8), rotation
(-0.7, -6.2, -3.2), scale (1.1, 1.1, 1.1). -/
theorem c5_example_scenario :
    ((completeOk 0 (init initState)).currentModel.map Model.transform
      = some ⟨⟨-10, -20, -7⟩, ⟨-1.02, -1.06, 0.07⟩, ⟨1, 1, 1⟩⟩) ∧
    ((selectPresetEvent "Palm View"
        (completeOk 0 (init initState))).currentModel.map Model.transform
      = some ⟨⟨1, 39, -6⟩, ⟨4.41, 1.72, 0.07⟩, ⟨1.2, 1.2, 1.2⟩⟩) ∧
    ((completeOk 1 (selectModelEvent "Skeleton Hand" (selectPresetEvent
        "Palm View" (completeOk 0 (init initState))))).currentModel.map
          Model.transform
      = some ⟨⟨10, 30, 8⟩, ⟨-0.7, -6.2, -3.2⟩, ⟨1.1, 1.1, 1.1⟩⟩) := by
  refine ⟨?_, ?_, ?_⟩
  · rw [show (completeOk 0 (init initState)).currentModel.map Model.transform
        = some ⟨⟨-10, -20, -7⟩,
            ⟨Rat.divInt (-102) 100, Rat.divInt (-106) 100, Rat.divInt 7 100⟩,
            ⟨1, 1, 1⟩⟩ from by decide]
    simp only [Option.some.injEq, Transform.mk.injEq, Vec3.mk.injEq]
    norm_num [Rat.divInt_eq_div]
  · rw [show (selectPresetEvent "Palm View"
          (completeOk 0 (init initState))).currentModel.map Model.transform
        = some ⟨⟨1, 39, -6⟩,
            ⟨Rat.divInt 441 100, Rat.divInt 172 100, Rat.divInt 7 100⟩,
            ⟨Rat.divInt 12 10, Rat.divInt 12 10, Rat.divInt 12 10⟩⟩ from by
          decide]
    simp only [Option.some.injEq, Transform.mk.injEq, Vec3.mk.injEq]
    norm_num [Rat.divInt_eq_div]
  · rw [show (completeOk 1 (selectModelEvent "Skeleton Hand"
          (selectPresetEvent "Palm View"
            (completeOk 0 (init initState))))).currentModel.map Model.transform
        = some ⟨⟨10, 30, 8⟩,
            ⟨Rat.divInt (-7) 10, Rat.divInt (-62) 10, Rat.divInt (-32) 10⟩,
            ⟨Rat.divInt 11 10, Rat.divInt 11 10, Rat.divInt 11 10⟩⟩ from by
          decide]
    simp only [Option.some.injEq, Transform.mk.injEq, Vec3.mk.injEq]
    norm_num [Rat.divInt_eq_div]
